import Mathlib

/-
Verification development for the stoxum-lib core: a shallow embedding of
src/ledger/pathfind.ts and src/transaction/payment.ts, followed by theorems
settling the claims about them.  Decimal-string values handled by the
arbitrary-precision BigNumber library are modelled as rationals; JS
`undefined`-able fields are modelled as Option; thrown validation and
not-found errors become Except results.
-/

deriving instance DecidableEq for Except

namespace Stoxum

/-- An amount with a required decimal value: currency code, value
(decimal string, modelled as a rational) and an optional counterparty. -/
structure Amount where
  currency : String
  value : ℚ
  counterparty : Option String
deriving DecidableEq

/-- An amount whose value may be unset, as in a path-find destination
amount (the code defaults the missing value to the -1 sentinel). -/
structure LaxAmount where
  currency : String
  value : Option ℚ
  counterparty : Option String
deriving DecidableEq

/-- The stoxumd wire encoding of an amount: XRP amounts travel as plain
decimal strings, issued-currency amounts as structured objects carrying
currency, value and an optional issuer. -/
inductive StoxumdAmount where
  | str (value : ℚ)
  | obj (currency : String) (value : ℚ) (issuer : Option String)
deriving DecidableEq

/-- The numeric value an encoded amount denotes (the string itself for the
native encoding, the value field for the structured encoding). -/
def StoxumdAmount.numericValue : StoxumdAmount → ℚ
  | .str v => v
  | .obj _ v _ => v

/-- JS truthiness of an optional string: `undefined` and the empty string
are falsy. -/
def isBlank : Option String → Bool
  | none => true
  | some s => s = ""

/-- Modelled from the spec: the amount encoder toStoxumdAmount lives in
src/common, which is not under src/.  Native amounts are encoded as plain
decimal strings, issued amounts as structured objects whose issuer field is
the amount's counterparty. -/
def toStoxumdAmount (a : Amount) : StoxumdAmount :=
  if a.currency = "XRP" then .str a.value else .obj a.currency a.value a.counterparty

/- ----------------------------------------------------------------------
  src/transaction/payment.ts
---------------------------------------------------------------------- -/

/-- The source side of a payment: either a fixed amount or an amount
capped at a maximum (the Adjustment | MaxAdjustment union). -/
inductive SourceAdjustment where
  | fixed (address : String) (amount : Amount) (tag : Option ℕ)
  | cappedMax (address : String) (maxAmount : Amount) (tag : Option ℕ)
deriving DecidableEq

/-- The destination side of a payment: either a fixed amount or an amount
floored at a minimum (the Adjustment | MinAdjustment union). -/
inductive DestinationAdjustment where
  | fixed (address : String) (amount : Amount) (tag : Option ℕ)
  | floorMin (address : String) (minAmount : Amount) (tag : Option ℕ)
deriving DecidableEq

def SourceAdjustment.address : SourceAdjustment → String
  | .fixed a _ _ => a
  | .cappedMax a _ _ => a

def SourceAdjustment.tag : SourceAdjustment → Option ℕ
  | .fixed _ _ t => t
  | .cappedMax _ _ t => t

/-- The amount field the source adjustment carries (maxAmount for a
capped-at-max source, amount for a fixed source); this is the resolution
performed at lines 99-100 of payment.ts. -/
def SourceAdjustment.resolvedAmount : SourceAdjustment → Amount
  | .fixed _ a _ => a
  | .cappedMax _ a _ => a

def DestinationAdjustment.address : DestinationAdjustment → String
  | .fixed a _ _ => a
  | .floorMin a _ _ => a

def DestinationAdjustment.tag : DestinationAdjustment → Option ℕ
  | .fixed _ _ t => t
  | .floorMin _ _ t => t

/-- The amount field the destination adjustment carries (minAmount for a
floored-at-min destination, amount for a fixed destination); the
resolution performed at lines 97-98 of payment.ts. -/
def DestinationAdjustment.resolvedAmount : DestinationAdjustment → Amount
  | .fixed _ a _ => a
  | .floorMin _ a _ => a

/-- A payment intent (the Payment interface of payment.ts).  The optional
booleans are modelled as Bool since the code treats an absent flag and a
false flag alike. -/
structure Payment where
  source : SourceAdjustment
  destination : DestinationAdjustment
  paths : Option String
  memos : Option (List String)
  invoiceID : Option String
  allowPartialPayment : Bool
  noDirectStoxum : Bool
  limitQuality : Bool
deriving DecidableEq

/-- isMaxAdjustment: the source carries a maxAmount. -/
def isMaxAdjustment : SourceAdjustment → Bool
  | .fixed _ _ _ => false
  | .cappedMax _ _ _ => true

/-- isMinAdjustment: the destination carries a minAmount. -/
def isMinAdjustment : DestinationAdjustment → Bool
  | .fixed _ _ _ => false
  | .floorMin _ _ _ => true

/-- isXRPToXRPPayment: both the resolved source currency and the resolved
destination currency are XRP. -/
def isXRPToXRPPayment (payment : Payment) : Bool :=
  payment.source.resolvedAmount.currency = "XRP"
    && payment.destination.resolvedAmount.currency = "XRP"

/-- isIOUWithoutCounterparty: a non-XRP amount whose counterparty is
strictly undefined. -/
def isIOUWithoutCounterparty (amount : Amount) : Bool :=
  amount.currency ≠ "XRP" && amount.counterparty = none

/-- One step of applyAnyCounterpartyEncoding: default a blank counterparty
of an issued amount to the owning adjustment's address. -/
def applyCounterparty (ownerAddress : String) (amount : Amount) : Amount :=
  if isIOUWithoutCounterparty amount then
    { amount with counterparty := some ownerAddress }
  else amount

/-- applyAnyCounterpartyEncoding: for each of the two adjustments, default
the counterparty of its amount field using that adjustment's own address. -/
def applyAnyCounterpartyEncoding (payment : Payment) : Payment :=
  { payment with
    source :=
      match payment.source with
      | .fixed addr a t => .fixed addr (applyCounterparty addr a) t
      | .cappedMax addr a t => .cappedMax addr (applyCounterparty addr a) t,
    destination :=
      match payment.destination with
      | .fixed addr a t => .fixed addr (applyCounterparty addr a) t
      | .floorMin addr a t => .floorMin addr (applyCounterparty addr a) t }

/-- The maxXRPValue sentinel constant of createMaximalAmount
(the decimal string 100000000000). -/
def maxXRPValue : ℚ := 100000000000

/-- The maxIOUValue sentinel constant of createMaximalAmount (the decimal
string 9999999999999999e80, written out as the numeral it denotes). -/
def maxIOUValue : ℚ :=
  999999999999999900000000000000000000000000000000000000000000000000000000000000000000000000000000

/-- createMaximalAmount: copy of the amount with the value replaced by the
currency-specific ceiling sentinel. -/
def createMaximalAmount (amount : Amount) : Amount :=
  { amount with
    value := if amount.currency = "XRP" then maxXRPValue else maxIOUValue }

/-- Modelled from the spec: the payment flag bit for no-direct-route, from
the external txFlags table in src/common. -/
def NoStoxumDirectFlag : ℕ := 65536

/-- Modelled from the spec: the payment flag bit for partial payment, from
the external txFlags table in src/common. -/
def PartialPaymentFlag : ℕ := 131072

/-- Modelled from the spec: the payment flag bit for limit-quality, from
the external txFlags table in src/common. -/
def LimitQualityFlag : ℕ := 262144

/-- The validation errors createPaymentTransaction can throw, in source
order of their throw sites. -/
inductive PaymentError where
  | addressMismatch
  | ambiguousAdjustment
  | xrpToXrpPartialPayment
deriving DecidableEq

/-- The compiled protocol transaction object (txJSON).  The external memo
encoder and path decoder are modelled as the identity, so Memos and Paths
carry the intent's own values when set. -/
structure TxJSON where
  TransactionType : String
  Account : String
  Destination : String
  Amount : StoxumdAmount
  Flags : ℕ
  InvoiceID : Option String
  SourceTag : Option ℕ
  DestinationTag : Option ℕ
  Memos : Option (List String)
  SendMax : Option StoxumdAmount
  DeliverMin : Option StoxumdAmount
  Paths : Option String
deriving DecidableEq

/-- createPaymentTransaction: clone, counterparty-default, validate the
address and the adjustment shape, then assemble the transaction object. -/
def createPaymentTransaction (address : String) (paymentArgument : Payment) :
    Except PaymentError TxJSON :=
  let payment := applyAnyCounterpartyEncoding paymentArgument
  if address ≠ payment.source.address then
    .error .addressMismatch
  else if (isMaxAdjustment payment.source && isMinAdjustment payment.destination)
      || (!isMaxAdjustment payment.source && !isMinAdjustment payment.destination) then
    .error .ambiguousAdjustment
  else
    let destinationAmount := payment.destination.resolvedAmount
    let sourceAmount := payment.source.resolvedAmount
    let amount :=
      if isMinAdjustment payment.destination && !isXRPToXRPPayment payment then
        createMaximalAmount destinationAmount
      else destinationAmount
    let flags0 : ℕ := 0
    let flags1 := if payment.noDirectStoxum then flags0 ||| NoStoxumDirectFlag else flags0
    let flags2 := if payment.limitQuality then flags1 ||| LimitQualityFlag else flags1
    let base : TxJSON :=
      { TransactionType := "Payment"
        Account := payment.source.address
        Destination := payment.destination.address
        Amount := toStoxumdAmount amount
        Flags := flags2
        InvoiceID := payment.invoiceID
        SourceTag := payment.source.tag
        DestinationTag := payment.destination.tag
        Memos := payment.memos
        SendMax := none
        DeliverMin := none
        Paths := none }
    if !isXRPToXRPPayment payment then
      let flags3 :=
        if payment.allowPartialPayment || isMinAdjustment payment.destination then
          flags2 ||| PartialPaymentFlag
        else flags2
      .ok { base with
            Flags := flags3
            SendMax := some (toStoxumdAmount sourceAmount)
            DeliverMin :=
              if isMinAdjustment payment.destination then
                some (toStoxumdAmount destinationAmount)
              else none
            Paths := payment.paths }
    else if payment.allowPartialPayment then
      .error .xrpToXrpPartialPayment
    else
      .ok base

/- ----------------------------------------------------------------------
  src/ledger/pathfind.ts
---------------------------------------------------------------------- -/

/-- A source-currency entry of a route query: currency with optional
counterparty. -/
structure CurrencySpec where
  currency : String
  counterparty : Option String
deriving DecidableEq

/-- A source-currency entry in protocol shape: currency with optional
issuer. -/
structure IssuerSpec where
  currency : String
  issuer : Option String
deriving DecidableEq

/-- Modelled from the spec: renameCounterpartyToIssuer from ledger/utils
(not under src/) maps a currency entry to the protocol shape, renaming the
counterparty field to issuer. -/
def renameCounterpartyToIssuer (c : CurrencySpec) : IssuerSpec :=
  { currency := c.currency, issuer := c.counterparty }

/-- The source half of a PathFind query. -/
structure PathFindSource where
  address : String
  amount : Option Amount
  currencies : Option (List CurrencySpec)
deriving DecidableEq

/-- The destination half of a PathFind query; its amount's value may be
unset, meaning "discover the maximum deliverable". -/
structure PathFindDestination where
  address : String
  amount : LaxAmount
deriving DecidableEq

/-- A route-query intent (the PathFind type). -/
structure PathFind where
  source : PathFindSource
  destination : PathFindDestination
deriving DecidableEq

/-- The route-discovery request handed to the transport
(the PathFindRequest type). -/
structure PathFindRequest where
  command : String
  source_account : String
  destination_account : String
  destination_amount : StoxumdAmount
  source_currencies : Option (List IssuerSpec)
  send_max : Option StoxumdAmount
deriving DecidableEq

/-- One raw route alternative of a stoxumd response; its source_amount may
be absent, and path steps are kept opaque. -/
structure PathAlternative where
  source_amount : Option StoxumdAmount
  paths_computed : List String
deriving DecidableEq

/-- A raw stoxumd route-discovery response (the StoxumdPathsResponse
type), with the fields addParams may fill left optional. -/
structure StoxumdPathsResponse where
  alternatives : Option (List PathAlternative)
  destination_currencies : Option (List String)
  destination_amount : Option StoxumdAmount
  source_account : Option String
  source_currencies : Option (List IssuerSpec)
deriving DecidableEq

/-- The errors a route query can fail with: the validation error of
requestPathFind, then the three diagnosed not-found errors of
formatResponse in source order. -/
inductive PathsError where
  | bothAmounts
  | notAcceptedCurrency (accepted : List String)
  | insufficientLiquidity
  | insufficientBalance
deriving DecidableEq

/-- Default a blank issuer of a structured encoded amount to the given
address; string (native) encodings are untouched.  This is the issuer
defaulting applied to destination_amount (lines 35-43) and send_max
(lines 54-56) of pathfind.ts. -/
def defaultBlankIssuer (address : String) : StoxumdAmount → StoxumdAmount
  | .str v => .str v
  | .obj c v i => .obj c v (if isBlank i then some address else i)

/-- requestPathFind, up to the transport call: build the route-discovery
request, or fail when both source.amount and destination.amount.value are
set.  The thrown ValidationError becomes the error result, raised before
the request is handed to the connection. -/
def requestPathFind (pathfind : PathFind) : Except PathsError PathFindRequest :=
  let destinationAmount : Amount :=
    { currency := pathfind.destination.amount.currency
      value := (pathfind.destination.amount.value).getD (-1)
      counterparty := pathfind.destination.amount.counterparty }
  let destAmt :=
    defaultBlankIssuer pathfind.destination.address (toStoxumdAmount destinationAmount)
  let sourceCurrencies : Option (List IssuerSpec) :=
    match pathfind.source.currencies with
    | some l => if l.length > 0 then some (l.map renameCounterpartyToIssuer) else none
    | none => none
  match pathfind.source.amount with
  | some sa =>
      if pathfind.destination.amount.value ≠ none then
        .error .bothAmounts
      else
        .ok { command := "ripple_path_find"
              source_account := pathfind.source.address
              destination_account := pathfind.destination.address
              destination_amount := destAmt
              source_currencies := sourceCurrencies
              send_max := some (defaultBlankIssuer pathfind.source.address (toStoxumdAmount sa)) }
  | none =>
      .ok { command := "ripple_path_find"
            source_account := pathfind.source.address
            destination_account := pathfind.destination.address
            destination_amount := destAmt
            source_currencies := sourceCurrencies
            send_max := none }

/-- addParams: overwrite the response's source_account and
source_currencies with the request's, and default a missing
destination_amount from the request. -/
def addParams (request : PathFindRequest) (result : StoxumdPathsResponse) :
    StoxumdPathsResponse :=
  { result with
    source_account := some request.source_account
    source_currencies := request.source_currencies
    destination_amount :=
      match result.destination_amount with
      | some d => some d
      | none => some request.destination_amount }

/-- isStoxumdIOUAmount: a structured amount whose currency is truthy and
differs from XRP. -/
def isStoxumdIOUAmount : Option StoxumdAmount → Bool
  | some (.obj c _ _) => c ≠ "" && c ≠ "XRP"
  | _ => false

/-- The BigNumber greaterThanOrEqualTo comparison of the balance against
the raw destination amount.  Only a native (string) encoding denotes a
number; comparing against a structured object or a missing amount goes
through a non-numeric BigNumber coercion whose comparison never holds, so
it is modelled as false (the code never relies on that branch). -/
def balanceGte (xrpBalance : ℚ) : Option StoxumdAmount → Bool
  | some (.str v) => xrpBalance ≥ v
  | _ => false

/-- lodash includes on an optional list: false when the list is absent. -/
def listIncludes (l : Option (List String)) (s : String) : Bool :=
  match l with
  | some l => l.contains s
  | none => false

/-- addDirectXrpPath: if the source balance is at least the destination
amount, prepend the zero-hop alternative whose source amount is the
destination amount and whose computed path is empty.  The code calls
unshift on paths.alternatives, which requires the field to be present; the
absent case never arises after addParams and is modelled with an empty
default. -/
def directAlternative (dest : Option StoxumdAmount) : PathAlternative :=
  { source_amount := dest, paths_computed := [] }

/-- addDirectXrpPath itself; see the comment on directAlternative. -/
def addDirectXrpPath (paths : StoxumdPathsResponse) (xrpBalance : ℚ) :
    StoxumdPathsResponse :=
  if balanceGte xrpBalance paths.destination_amount then
    { paths with
      alternatives := some (directAlternative paths.destination_amount
        :: paths.alternatives.getD []) }
  else paths

/-- conditionallyAddDirectXRPPath: skip when the destination amount is an
issued-currency object or the destination currencies do not include XRP;
otherwise fetch the XRP balance and run addDirectXrpPath.  The balance the
lookup would return is passed in, and the Bool of the result records
whether the lookup was performed. -/
def conditionallyAddDirectXRPPath (xrpBalance : ℚ) (paths : StoxumdPathsResponse) :
    StoxumdPathsResponse × Bool :=
  if isStoxumdIOUAmount paths.destination_amount
      || !listIncludes paths.destination_currencies "XRP" then
    (paths, false)
  else
    (addDirectXrpPath paths xrpBalance, true)

/-- The alternative-keeping test of filterSourceFundsLowPaths: the
alternative carries a source_amount, the query carries a source amount,
the source_amount is not a plain string, and its value equals the query's
source amount value exactly. -/
def lowFundsKeep (pathfind : PathFind) (alt : PathAlternative) : Bool :=
  match alt.source_amount, pathfind.source.amount with
  | some (.str _), some _ => false
  | some (.obj _ v _), some qa => v = qa.value
  | _, _ => false

/-- filterSourceFundsLowPaths: when the query fixed a source amount, left
the destination amount's value unset and the response carries an
alternatives list, keep only the alternatives passing lowFundsKeep. -/
def filterSourceFundsLowPaths (pathfind : PathFind) (paths : StoxumdPathsResponse) :
    StoxumdPathsResponse :=
  if pathfind.source.amount.isSome
      && pathfind.destination.amount.value = none
      && paths.alternatives.isSome then
    { paths with
      alternatives := paths.alternatives.map (List.filter (lowFundsKeep pathfind)) }
  else paths

/-- Modelled from the spec: the external path parser (ledger/parse, not
under src/) decodes each remaining raw alternative into a route
alternative, preserving their number and order; the decoding itself is
outside the core, so it is modelled as the identity on the alternatives
list. -/
def parsePathfind (paths : StoxumdPathsResponse) : List PathAlternative :=
  paths.alternatives.getD []

/-- The fallback diagnosis of formatResponse: liquidity when the response
carries a non-empty source_currencies list, source balance otherwise. -/
def noPathsFallback (paths : StoxumdPathsResponse) : PathsError :=
  match paths.source_currencies with
  | some l => if l.length > 0 then .insufficientLiquidity else .insufficientBalance
  | none => .insufficientBalance

/-- The not-found diagnosis of formatResponse: accepted-currency report
when destination_currencies is present and misses the requested currency,
the fallback diagnosis otherwise. -/
def diagnoseNoPaths (pathfind : PathFind) (paths : StoxumdPathsResponse) : PathsError :=
  match paths.destination_currencies with
  | some dc =>
      if !dc.contains pathfind.destination.amount.currency then
        .notAcceptedCurrency dc
      else noPathsFallback paths
  | none => noPathsFallback paths

/-- formatResponse: return the parsed alternatives when a non-empty list
remains, otherwise throw the diagnosed NotFoundError. -/
def formatResponse (pathfind : PathFind) (paths : StoxumdPathsResponse) :
    Except PathsError (List PathAlternative) :=
  match paths.alternatives with
  | some (_ :: _) => .ok (parsePathfind paths)
  | _ => .error (diagnoseNoPaths pathfind paths)

/-- The processed response right before formatResponse: the pipeline of
addParams, conditional direct-route injection and low-funds filtering. -/
def processedPaths (pathfind : PathFind) (request : PathFindRequest)
    (serverResult : StoxumdPathsResponse) (xrpBalance : ℚ) : StoxumdPathsResponse :=
  filterSourceFundsLowPaths pathfind
    (conditionallyAddDirectXRPPath xrpBalance (addParams request serverResult)).1

/-- getPaths with its two transport round trips abstracted: the raw
route-discovery result and the balance the conditional lookup would
return are passed in, and the promise chain of pathfind.ts becomes the
sequential pipeline over them. -/
def getPathsPure (pathfind : PathFind) (serverResult : StoxumdPathsResponse)
    (xrpBalance : ℚ) : Except PathsError (List PathAlternative) :=
  match requestPathFind pathfind with
  | .error e => .error e
  | .ok req => formatResponse pathfind (processedPaths pathfind req serverResult xrpBalance)

/-- Whether the query specified one or more source currencies
(the truthy-and-non-empty test of line 44 of pathfind.ts). -/
def querySpecifiesSourceCurrencies (pathfind : PathFind) : Bool :=
  match pathfind.source.currencies with
  | some l => l.length > 0
  | none => false

/-- The truthy-and-non-empty test formatResponse applies to the
source_currencies field of a response. -/
def hasSourceCurrencies (o : Option (List IssuerSpec)) : Bool :=
  match o with
  | some l => l.length > 0
  | none => false

/-- Exactly one of the two valid adjustment pairings: source capped at a
maximum with a fixed destination, or a fixed source with a destination
floored at a minimum. -/
def exactlyOnePairing (p : Payment) : Prop :=
  (isMaxAdjustment p.source = true ∧ isMinAdjustment p.destination = false) ∨
  (isMaxAdjustment p.source = false ∧ isMinAdjustment p.destination = true)

instance (p : Payment) : Decidable (exactlyOnePairing p) := by
  unfold exactlyOnePairing
  infer_instance

/- ----------------------------------------------------------------------
  Concrete inputs used as test vectors
---------------------------------------------------------------------- -/

def usdAmt (v : ℚ) : Amount := { currency := "USD", value := v, counterparty := none }

def xrpAmt (v : ℚ) : Amount := { currency := "XRP", value := v, counterparty := none }

/-- A fixed-spend route query: source amount 1 USD, destination value unset. -/
def lowFundsQuery : PathFind :=
  { source := { address := "rSrc", amount := some (usdAmt 1), currencies := none }
    destination := { address := "rDst",
                     amount := { currency := "USD", value := none, counterparty := none } } }

/-- The same query with the destination value specified as well. -/
def specifiedDestQuery : PathFind :=
  { source := { address := "rSrc", amount := some (usdAmt 1), currencies := none }
    destination := { address := "rDst",
                     amount := { currency := "USD", value := some 1, counterparty := none } } }

/-- A response whose only alternative has a string-encoded source amount
denoting exactly the fixed query amount 1. -/
def stringAltPaths : StoxumdPathsResponse :=
  { alternatives := some [{ source_amount := some (.str 1), paths_computed := [] }]
    destination_currencies := some ["USD"]
    destination_amount := some (.obj "USD" 1 (some "rDst"))
    source_account := none
    source_currencies := none }

/-- A response whose destination accepts XRP but whose destination amount
is an issued-currency object of value 5. -/
def iouDirectPaths : StoxumdPathsResponse :=
  { alternatives := some []
    destination_currencies := some ["USD", "XRP"]
    destination_amount := some (.obj "USD" 5 (some "rIssuer"))
    source_account := none
    source_currencies := none }

/-- A response with a native destination amount of 5 and XRP among the
accepted currencies. -/
def xrpDirectPaths : StoxumdPathsResponse :=
  { alternatives := some []
    destination_currencies := some ["XRP"]
    destination_amount := some (.str 5)
    source_account := none
    source_currencies := none }

/-- A response with a native destination amount whose accepted currencies
do not include XRP. -/
def usdOnlyDirectPaths : StoxumdPathsResponse :=
  { alternatives := some []
    destination_currencies := some ["USD"]
    destination_amount := some (.str 5)
    source_account := none
    source_currencies := none }

/-- A route query for 3 EUR with neither source amount nor currencies. -/
def eurQuery : PathFind :=
  { source := { address := "rSrc", amount := none, currencies := none }
    destination := { address := "rDst",
                     amount := { currency := "EUR", value := some 3, counterparty := none } } }

/-- The request eurQuery builds. -/
def eurRequest : PathFindRequest :=
  { command := "ripple_path_find"
    source_account := "rSrc"
    destination_account := "rDst"
    destination_amount := .obj "EUR" 3 (some "rDst")
    source_currencies := none
    send_max := none }

/-- A response with no alternatives from a destination accepting only USD. -/
def emptyAltPaths : StoxumdPathsResponse :=
  { alternatives := some []
    destination_currencies := some ["USD"]
    destination_amount := some (.obj "EUR" 3 (some "rDst"))
    source_account := none
    source_currencies := none }

/-- A response with one surviving alternative. -/
def oneAltPaths : StoxumdPathsResponse :=
  { alternatives := some [{ source_amount := some (.obj "EUR" 3 (some "rX")), paths_computed := [] }]
    destination_currencies := some ["EUR"]
    destination_amount := some (.obj "EUR" 3 (some "rDst"))
    source_account := none
    source_currencies := none }

/-- A valid capped-at-max / fixed payment in USD. -/
def pValid : Payment :=
  { source := .cappedMax "rA" (usdAmt 5) none
    destination := .fixed "rB" (usdAmt 5) none
    paths := none, memos := none, invoiceID := none
    allowPartialPayment := false, noDirectStoxum := false, limitQuality := false }

/-- Its compiled transaction. -/
def cTxValid : TxJSON :=
  { TransactionType := "Payment", Account := "rA", Destination := "rB"
    Amount := .obj "USD" 5 (some "rB"), Flags := 0
    InvoiceID := none, SourceTag := none, DestinationTag := none, Memos := none
    SendMax := some (.obj "USD" 5 (some "rA")), DeliverMin := none, Paths := none }

/-- An invalid payment: both sides fixed. -/
def pAmbiguous : Payment :=
  { source := .fixed "rA" (xrpAmt 1) none
    destination := .fixed "rB" (xrpAmt 1) none
    paths := none, memos := none, invoiceID := none
    allowPartialPayment := false, noDirectStoxum := false, limitQuality := false }

/-- A valid all-native fixed / floored-at-min payment. -/
def pNativeMin : Payment :=
  { source := .fixed "rA" (xrpAmt 1) none
    destination := .floorMin "rB" (xrpAmt 1) none
    paths := none, memos := none, invoiceID := none
    allowPartialPayment := false, noDirectStoxum := false, limitQuality := false }

/-- Its compiled transaction. -/
def cTxNative : TxJSON :=
  { TransactionType := "Payment", Account := "rA", Destination := "rB"
    Amount := .str 1, Flags := 0
    InvoiceID := none, SourceTag := none, DestinationTag := none, Memos := none
    SendMax := none, DeliverMin := none, Paths := none }

/-- The same all-native payment requesting partial payment. -/
def pNativePartial : Payment :=
  { source := .fixed "rA" (xrpAmt 1) none
    destination := .floorMin "rB" (xrpAmt 1) none
    paths := none, memos := none, invoiceID := none
    allowPartialPayment := true, noDirectStoxum := false, limitQuality := false }

/-- A valid fixed / floored-at-min payment in USD. -/
def pMinIOU : Payment :=
  { source := .fixed "rA" (usdAmt 5) none
    destination := .floorMin "rB" (usdAmt 4) none
    paths := none, memos := none, invoiceID := none
    allowPartialPayment := false, noDirectStoxum := false, limitQuality := false }

/-- Its compiled transaction: the delivery amount is the issued-currency
ceiling sentinel and the partial-payment bit is set. -/
def cTxMinIOU : TxJSON :=
  { TransactionType := "Payment", Account := "rA", Destination := "rB"
    Amount := .obj "USD" maxIOUValue (some "rB"), Flags := 131072
    InvoiceID := none, SourceTag := none, DestinationTag := none, Memos := none
    SendMax := some (.obj "USD" 5 (some "rA"))
    DeliverMin := some (.obj "USD" 4 (some "rB")), Paths := none }

/- ----------------------------------------------------------------------
  Helper lemmas
---------------------------------------------------------------------- -/

theorem applyCE_source_address (p : Payment) :
    (applyAnyCounterpartyEncoding p).source.address = p.source.address := by
  cases h : p.source <;> simp [applyAnyCounterpartyEncoding, SourceAdjustment.address, h]

theorem applyCE_dest_address (p : Payment) :
    (applyAnyCounterpartyEncoding p).destination.address = p.destination.address := by
  cases h : p.destination <;>
    simp [applyAnyCounterpartyEncoding, DestinationAdjustment.address, h]

theorem applyCE_isMax (p : Payment) :
    isMaxAdjustment (applyAnyCounterpartyEncoding p).source = isMaxAdjustment p.source := by
  cases h : p.source <;> simp [applyAnyCounterpartyEncoding, isMaxAdjustment, h]

theorem applyCE_isMin (p : Payment) :
    isMinAdjustment (applyAnyCounterpartyEncoding p).destination
      = isMinAdjustment p.destination := by
  cases h : p.destination <;> simp [applyAnyCounterpartyEncoding, isMinAdjustment, h]

theorem applyCE_source_resolved (p : Payment) :
    (applyAnyCounterpartyEncoding p).source.resolvedAmount
      = applyCounterparty p.source.address p.source.resolvedAmount := by
  cases h : p.source <;>
    simp [applyAnyCounterpartyEncoding, SourceAdjustment.resolvedAmount,
      SourceAdjustment.address, h]

theorem applyCE_dest_resolved (p : Payment) :
    (applyAnyCounterpartyEncoding p).destination.resolvedAmount
      = applyCounterparty p.destination.address p.destination.resolvedAmount := by
  cases h : p.destination <;>
    simp [applyAnyCounterpartyEncoding, DestinationAdjustment.resolvedAmount,
      DestinationAdjustment.address, h]

theorem applyCounterparty_currency (o : String) (a : Amount) :
    (applyCounterparty o a).currency = a.currency := by
  simp only [applyCounterparty]
  split <;> rfl

theorem applyCE_xrpToXrp (p : Payment) :
    isXRPToXRPPayment (applyAnyCounterpartyEncoding p) = isXRPToXRPPayment p := by
  simp [isXRPToXRPPayment, applyCE_source_resolved, applyCE_dest_resolved,
    applyCounterparty_currency]

/- ----------------------------------------------------------------------
  Claims
---------------------------------------------------------------------- -/

/-- C7: createMaximalAmount keeps the currency and counterparty of its
input and replaces the value by the fixed native sentinel for XRP amounts
and by the strictly larger issued-currency sentinel otherwise. -/
theorem claim7_maximal_amount (a : Amount) :
    (createMaximalAmount a).currency = a.currency ∧
    (createMaximalAmount a).counterparty = a.counterparty ∧
    (createMaximalAmount a).value
      = (if a.currency = "XRP" then maxXRPValue else maxIOUValue) ∧
    maxXRPValue < maxIOUValue := by
  refine ⟨rfl, rfl, rfl, ?_⟩
  norm_num [maxXRPValue, maxIOUValue]

/-- C8: counterparty defaulting leaves native amounts and amounts that
already carry a counterparty untouched, and fills a missing counterparty
of an issued amount with the owning adjustment's own address, on both the
source and the destination side; addresses are unchanged. -/
theorem claim8_counterparty_defaulting (p : Payment) :
    ((p.source.resolvedAmount.currency = "XRP" ∨ p.source.resolvedAmount.counterparty ≠ none) →
      (applyAnyCounterpartyEncoding p).source.resolvedAmount = p.source.resolvedAmount) ∧
    (p.source.resolvedAmount.currency ≠ "XRP" → p.source.resolvedAmount.counterparty = none →
      (applyAnyCounterpartyEncoding p).source.resolvedAmount
        = { p.source.resolvedAmount with counterparty := some p.source.address }) ∧
    ((p.destination.resolvedAmount.currency = "XRP"
        ∨ p.destination.resolvedAmount.counterparty ≠ none) →
      (applyAnyCounterpartyEncoding p).destination.resolvedAmount
        = p.destination.resolvedAmount) ∧
    (p.destination.resolvedAmount.currency ≠ "XRP"
        → p.destination.resolvedAmount.counterparty = none →
      (applyAnyCounterpartyEncoding p).destination.resolvedAmount
        = { p.destination.resolvedAmount with counterparty := some p.destination.address }) ∧
    (applyAnyCounterpartyEncoding p).source.address = p.source.address ∧
    (applyAnyCounterpartyEncoding p).destination.address = p.destination.address := by
  refine ⟨?_, ?_, ?_, ?_, applyCE_source_address p, applyCE_dest_address p⟩
  · rw [applyCE_source_resolved]
    intro h
    rcases h with h | h <;> simp [applyCounterparty, isIOUWithoutCounterparty, h]
  · rw [applyCE_source_resolved]
    intro h1 h2
    simp [applyCounterparty, isIOUWithoutCounterparty, h1, h2]
  · rw [applyCE_dest_resolved]
    intro h
    rcases h with h | h <;> simp [applyCounterparty, isIOUWithoutCounterparty, h]
  · rw [applyCE_dest_resolved]
    intro h1 h2
    simp [applyCounterparty, isIOUWithoutCounterparty, h1, h2]

/-- C8 witness: an issued amount without counterparty gets the owner's
address on both sides, and a native payment's amounts are untouched. -/
theorem claim8_counterparty_defaulting_witness :
    (applyAnyCounterpartyEncoding pValid).source.resolvedAmount
      = { usdAmt 5 with counterparty := some "rA" } ∧
    (applyAnyCounterpartyEncoding pValid).destination.resolvedAmount
      = { usdAmt 5 with counterparty := some "rB" } ∧
    (applyAnyCounterpartyEncoding pNativeMin).source.resolvedAmount = xrpAmt 1 ∧
    (applyAnyCounterpartyEncoding pNativeMin).destination.resolvedAmount = xrpAmt 1 := by
  refine ⟨((claim8_counterparty_defaulting pValid).2.1 (by decide) (by decide)).trans (by decide),
    ((claim8_counterparty_defaulting pValid).2.2.2.1 (by decide) (by decide)).trans (by decide),
    ((claim8_counterparty_defaulting pNativeMin).1 (by decide)).trans (by decide),
    ((claim8_counterparty_defaulting pNativeMin).2.2.1 (by decide)).trans (by decide)⟩

/-- C10: whenever the low-funds filter applies (fixed source amount,
destination value unset, alternatives present), every alternative whose
source_amount is absent or string-encoded is removed, whatever number it
denotes. -/
theorem claim10_low_funds_drops_nonobject (pf : PathFind) (sa : Amount)
    (paths : StoxumdPathsResponse) (l l' : List PathAlternative) (alt : PathAlternative)
    (hsrc : pf.source.amount = some sa)
    (hdst : pf.destination.amount.value = none)
    (halts : paths.alternatives = some l)
    (hbad : alt.source_amount = none ∨ ∃ v, alt.source_amount = some (.str v))
    (hres : (filterSourceFundsLowPaths pf paths).alternatives = some l') :
    alt ∉ l' := by
  intro hmem
  simp [filterSourceFundsLowPaths, hsrc, hdst, halts] at hres
  have hkeep : lowFundsKeep pf alt = true := by
    have hmem2 : alt ∈ List.filter (lowFundsKeep pf) l := by rw [hres]; exact hmem
    exact List.of_mem_filter hmem2
  rcases hbad with h | ⟨v, h⟩ <;> simp [lowFundsKeep, h, hsrc] at hkeep

/-- C10 witness: the string-encoded alternative of stringAltPaths is
dropped by the filter for lowFundsQuery. -/
theorem claim10_low_funds_drops_nonobject_witness :
    ({ source_amount := some (.str 1), paths_computed := [] } : PathAlternative)
      ∉ ([] : List PathAlternative) :=
  claim10_low_funds_drops_nonobject lowFundsQuery (usdAmt 1) stringAltPaths
    [{ source_amount := some (.str 1), paths_computed := [] }] []
    { source_amount := some (.str 1), paths_computed := [] }
    (by decide) (by decide) (by decide) (Or.inr ⟨1, rfl⟩) (by decide)

/-- C1 counterexample: a fixed-spend query (source amount 1 USD,
destination value unset) against a response whose only alternative has a
string-encoded source amount denoting exactly 1.  The claimed equivalence
says such an alternative is kept, but the filter removes it. -/
theorem claim1_counterexample :
    lowFundsQuery.source.amount = some (usdAmt 1) ∧
    lowFundsQuery.destination.amount.value = none ∧
    (∀ a ∈ stringAltPaths.alternatives.getD [],
      a.source_amount.map StoxumdAmount.numericValue = some (usdAmt 1).value) ∧
    (filterSourceFundsLowPaths lowFundsQuery stringAltPaths).alternatives = some [] := by
  refine ⟨rfl, rfl, ?_, by decide⟩
  decide

/-- C1 amended: when the query fixed a source amount and left the
destination value unset, the filter keeps exactly those alternatives whose
source amount is a structured object with value numerically equal to the
fixed amount (so absent and string-encoded source amounts are removed as
well); whenever the destination value was specified the response is
returned unchanged. -/
theorem claim1_low_funds_filter (pf : PathFind) (sa : Amount)
    (paths : StoxumdPathsResponse) :
    (pf.source.amount = some sa → pf.destination.amount.value = none →
      (filterSourceFundsLowPaths pf paths).alternatives
        = paths.alternatives.map (List.filter fun alt =>
            match alt.source_amount with
            | some (.obj _ v _) => decide (v = sa.value)
            | _ => false)) ∧
    (pf.destination.amount.value ≠ none →
      filterSourceFundsLowPaths pf paths = paths) := by
  constructor
  · intro hsrc hdst
    have hfun : lowFundsKeep pf = (fun alt =>
        match alt.source_amount with
        | some (.obj _ v _) => decide (v = sa.value)
        | _ => false) := by
      funext alt
      rcases h : alt.source_amount with _ | s
      · simp [lowFundsKeep, h, hsrc]
      · cases s <;> simp [lowFundsKeep, h, hsrc]
    rcases halts : paths.alternatives with _ | l
    · simp [filterSourceFundsLowPaths, hsrc, hdst, halts]
    · simp [filterSourceFundsLowPaths, hsrc, hdst, halts, hfun]
  · intro hdst
    simp [filterSourceFundsLowPaths, hdst]

/-- C1 amended witness: the string-valued alternative is removed in the
fixed-spend query, and the same response is untouched when the destination
value is specified. -/
theorem claim1_low_funds_filter_witness :
    (filterSourceFundsLowPaths lowFundsQuery stringAltPaths).alternatives
      = some [] ∧
    filterSourceFundsLowPaths specifiedDestQuery stringAltPaths = stringAltPaths := by
  constructor
  · exact ((claim1_low_funds_filter lowFundsQuery (usdAmt 1) stringAltPaths).1
      (by decide) (by decide)).trans (by decide)
  · exact (claim1_low_funds_filter specifiedDestQuery (usdAmt 1) stringAltPaths).2
      (by decide)

/-- C2 counterexample: a response whose destination accepts XRP and whose
issued-currency destination amount has value 5, with a source balance of
10.  The claimed equivalence says a direct alternative is prepended, but
the stage skips entirely: no alternative is added and the balance lookup
is not even performed. -/
theorem claim2_counterexample :
    listIncludes iouDirectPaths.destination_currencies "XRP" = true ∧
    iouDirectPaths.destination_amount.map StoxumdAmount.numericValue = some 5 ∧
    ((10 : ℚ) ≥ 5) ∧
    conditionallyAddDirectXRPPath 10 iouDirectPaths = (iouDirectPaths, false) := by
  refine ⟨by decide, by decide, by norm_num, by decide⟩

/-- C2 amended: the direct alternative is prepended iff the destination
amount is native-encoded (a plain string), the accepted-currency list
contains XRP and the balance is at least its value; in every other case
the response is unchanged, and the balance lookup is performed exactly
when the destination amount is not an issued-currency object and XRP is
among the accepted currencies — so never for an issued-currency
destination amount and never when XRP is not accepted. -/
theorem claim2_direct_route (xrpBalance : ℚ) (paths : StoxumdPathsResponse)
    (l : List PathAlternative) (halts : paths.alternatives = some l) :
    (∀ v, paths.destination_amount = some (.str v) →
      listIncludes paths.destination_currencies "XRP" = true →
      xrpBalance ≥ v →
      conditionallyAddDirectXRPPath xrpBalance paths
        = ({ paths with alternatives := some (directAlternative (some (.str v)) :: l) },
            true)) ∧
    (¬ (∃ v, paths.destination_amount = some (.str v) ∧
          listIncludes paths.destination_currencies "XRP" = true ∧ xrpBalance ≥ v) →
      (conditionallyAddDirectXRPPath xrpBalance paths).1 = paths) ∧
    ((conditionallyAddDirectXRPPath xrpBalance paths).2
      = (!isStoxumdIOUAmount paths.destination_amount
          && listIncludes paths.destination_currencies "XRP")) := by
  refine ⟨?_, ?_, ?_⟩
  · intro v hd hinc hge
    simp [conditionallyAddDirectXRPPath, isStoxumdIOUAmount, hd, hinc,
      addDirectXrpPath, balanceGte, hge, halts]
  · intro hno
    cases hinc : listIncludes paths.destination_currencies "XRP" with
    | false => simp [conditionallyAddDirectXRPPath, hinc]
    | true =>
      rcases hd : paths.destination_amount with _ | s
      · simp [conditionallyAddDirectXRPPath, isStoxumdIOUAmount, hd, hinc,
          addDirectXrpPath, balanceGte]
      · cases s with
        | str v =>
          have hge : ¬ xrpBalance ≥ v := fun hge => hno ⟨v, hd, hinc, hge⟩
          simp [conditionallyAddDirectXRPPath, isStoxumdIOUAmount, hd, hinc,
            addDirectXrpPath, balanceGte, hge]
        | obj c v i =>
          cases hiou : isStoxumdIOUAmount (some (StoxumdAmount.obj c v i)) with
          | true => simp [conditionallyAddDirectXRPPath, hd, hiou]
          | false => simp [conditionallyAddDirectXRPPath, hd, hiou, hinc,
              addDirectXrpPath, balanceGte]
  · cases hiou : isStoxumdIOUAmount paths.destination_amount <;>
      cases hinc : listIncludes paths.destination_currencies "XRP" <;>
        simp [conditionallyAddDirectXRPPath, hiou, hinc]

/-- C2 amended witness: the direct alternative is prepended for the
native-encoded response with sufficient balance; it is absent for the
issued-currency destination amount, whose lookup flag is false; and the
lookup flag is also false when XRP is not accepted. -/
theorem claim2_direct_route_witness :
    conditionallyAddDirectXRPPath 10 xrpDirectPaths
      = ({ xrpDirectPaths with alternatives := some [directAlternative (some (.str 5))] },
          true) ∧
    (conditionallyAddDirectXRPPath 10 iouDirectPaths).1 = iouDirectPaths ∧
    (conditionallyAddDirectXRPPath 10 iouDirectPaths).2 = false ∧
    (conditionallyAddDirectXRPPath 10 usdOnlyDirectPaths).2 = false := by
  refine ⟨?_, ?_, ?_, ?_⟩
  · exact ((claim2_direct_route 10 xrpDirectPaths [] (by decide)).1 5
      (by decide) (by decide) (by norm_num)).trans (by decide)
  · exact (claim2_direct_route 10 iouDirectPaths [] (by decide)).2.1 (by
      rintro ⟨v, hd, _, _⟩
      simp [iouDirectPaths] at hd)
  · exact ((claim2_direct_route 10 iouDirectPaths [] (by decide)).2.2).trans (by decide)
  · exact ((claim2_direct_route 10 usdOnlyDirectPaths [] (by decide)).2.2).trans (by decide)

/-- C4: compilation succeeds only when exactly one of the two valid
adjustment pairings holds, and for a matching address every other
combination fails with the ambiguous-adjustment validation error, before
any output is produced. -/
theorem claim4_adjustment_shape (address : String) (p : Payment) :
    (∀ tx, createPaymentTransaction address p = .ok tx → exactlyOnePairing p) ∧
    (address = p.source.address → ¬ exactlyOnePairing p →
      createPaymentTransaction address p = .error .ambiguousAdjustment) := by
  constructor
  · intro tx htx
    unfold createPaymentTransaction at htx
    dsimp only at htx
    split at htx
    · exact absurd htx (by simp)
    · split at htx
      · exact absurd htx (by simp)
      · rename_i hcond
        rw [applyCE_isMax, applyCE_isMin] at hcond
        cases hm : isMaxAdjustment p.source <;> cases hn : isMinAdjustment p.destination <;>
          simp [hm, hn] at hcond ⊢ <;> simp [exactlyOnePairing, hm, hn]
  · intro haddr hno
    have h1 : ¬ (address ≠ (applyAnyCounterpartyEncoding p).source.address) := by
      rw [applyCE_source_address]
      simp [haddr]
    have h2 : ((isMaxAdjustment (applyAnyCounterpartyEncoding p).source
        && isMinAdjustment (applyAnyCounterpartyEncoding p).destination)
        || (!isMaxAdjustment (applyAnyCounterpartyEncoding p).source
        && !isMinAdjustment (applyAnyCounterpartyEncoding p).destination)) = true := by
      rw [applyCE_isMax, applyCE_isMin]
      cases hm : isMaxAdjustment p.source <;> cases hn : isMinAdjustment p.destination <;>
        simp [exactlyOnePairing, hm, hn] at hno ⊢
    unfold createPaymentTransaction
    dsimp only
    rw [if_neg h1, if_pos h2]

/-- C4 witness: the valid capped-at-max / fixed payment compiles and its
pairing is one of the two valid ones, while the fixed / fixed payment is
rejected as ambiguous. -/
theorem claim4_adjustment_shape_witness :
    exactlyOnePairing pValid ∧
    createPaymentTransaction "rA" pAmbiguous = .error .ambiguousAdjustment := by
  constructor
  · exact (claim4_adjustment_shape "rA" pValid).1 cTxValid (by decide)
  · exact (claim4_adjustment_shape "rA" pAmbiguous).2 (by decide) (by decide)

/-- C5: a payment is all-native exactly when both resolved currencies are
XRP; every all-native payment requesting partial payment fails with a
validation error, and a successfully compiled all-native payment carries
no SendMax, DeliverMin or Paths field. -/
theorem claim5_all_native (address : String) (p : Payment) :
    (isXRPToXRPPayment p = true ↔
      (p.source.resolvedAmount.currency = "XRP" ∧
        p.destination.resolvedAmount.currency = "XRP")) ∧
    (isXRPToXRPPayment p = true → p.allowPartialPayment = true →
      ∃ e, createPaymentTransaction address p = .error e) ∧
    (isXRPToXRPPayment p = true → ∀ tx, createPaymentTransaction address p = .ok tx →
      tx.SendMax = none ∧ tx.DeliverMin = none ∧ tx.Paths = none) := by
  refine ⟨?_, ?_, ?_⟩
  · simp [isXRPToXRPPayment]
  · intro hx hpp
    have hx2 : isXRPToXRPPayment (applyAnyCounterpartyEncoding p) = true := by
      rw [applyCE_xrpToXrp]
      exact hx
    have hpp2 : (applyAnyCounterpartyEncoding p).allowPartialPayment = true := hpp
    unfold createPaymentTransaction
    dsimp only
    split
    · exact ⟨_, rfl⟩
    · split
      · exact ⟨_, rfl⟩
      · simp [hx2, hpp2]
  · intro hx tx htx
    unfold createPaymentTransaction at htx
    dsimp only at htx
    split at htx
    · exact absurd htx (by simp)
    · split at htx
      · exact absurd htx (by simp)
      · rw [applyCE_xrpToXrp, hx] at htx
        simp only [Bool.not_true] at htx
        rw [if_neg (by simp)] at htx
        split at htx
        · exact absurd htx (by simp)
        · simp only [Except.ok.injEq] at htx
          subst htx
          exact ⟨rfl, rfl, rfl⟩

/-- C5 witness: the all-native fixed / floored-at-min payment has both
resolved currencies XRP, the partial-payment variant fails, and the
compiled transaction has no SendMax, DeliverMin or Paths. -/
theorem claim5_all_native_witness :
    ((xrpAmt 1).currency = "XRP" ∧ (xrpAmt 1).currency = "XRP") ∧
    (∃ e, createPaymentTransaction "rA" pNativePartial = .error e) ∧
    (cTxNative.SendMax = none ∧ cTxNative.DeliverMin = none ∧ cTxNative.Paths = none) := by
  refine ⟨(claim5_all_native "rA" pNativeMin).1.mp (by decide), ?_, ?_⟩
  · exact (claim5_all_native "rA" pNativePartial).2.1 (by decide) (by decide)
  · exact (claim5_all_native "rA" pNativeMin).2.2 (by decide) cTxNative (by decide)

/-- C6: in every successful compilation the delivery amount is the
encoding of createMaximalAmount applied to the resolved (counterparty-
defaulted) destination amount exactly when the destination is floored at
a minimum and the payment is not all-native, and the encoding of the
resolved destination amount unmodified otherwise. -/
theorem claim6_delivery_amount (address : String) (p : Payment) (tx : TxJSON)
    (htx : createPaymentTransaction address p = .ok tx) :
    tx.Amount = toStoxumdAmount
      (if isMinAdjustment p.destination && !isXRPToXRPPayment p then
        createMaximalAmount (applyAnyCounterpartyEncoding p).destination.resolvedAmount
      else (applyAnyCounterpartyEncoding p).destination.resolvedAmount) := by
  unfold createPaymentTransaction at htx
  dsimp only at htx
  split at htx
  · exact absurd htx (by simp)
  · split at htx
    · exact absurd htx (by simp)
    · rw [applyCE_isMin, applyCE_xrpToXrp] at htx
      split at htx
      · simp only [Except.ok.injEq] at htx
        subst htx
        rfl
      · split at htx
        · exact absurd htx (by simp)
        · simp only [Except.ok.injEq] at htx
          subst htx
          rfl

/-- C6 witness: the fixed / floored-at-min USD payment compiles with the
issued-currency ceiling sentinel as delivery amount. -/
theorem claim6_delivery_amount_witness :
    cTxMinIOU.Amount = .obj "USD" maxIOUValue (some "rB") := by
  have h := claim6_delivery_amount "rA" pMinIOU cTxMinIOU (by decide)
  exact h.trans (by decide)

/-- C9: with a fixed source amount, the request builder fails before the
transport call when the destination value is also set, and otherwise the
built request's send_max is the encoded source amount with its issuer
defaulted to the source address when structured and blank. -/
theorem claim9_send_max (pf : PathFind) (sa : Amount)
    (hsa : pf.source.amount = some sa) :
    (pf.destination.amount.value ≠ none → requestPathFind pf = .error .bothAmounts) ∧
    (pf.destination.amount.value = none → ∃ req, requestPathFind pf = .ok req ∧
      req.send_max = some (defaultBlankIssuer pf.source.address (toStoxumdAmount sa))) := by
  constructor
  · intro hv
    unfold requestPathFind
    dsimp only
    rw [hsa]
    simp [hv]
  · intro hv
    unfold requestPathFind
    dsimp only
    rw [hsa]
    simp only [hv, ne_eq, not_true_eq_false, if_false, reduceCtorEq, if_neg]
    exact ⟨_, rfl, rfl⟩

/-- C9 witness: the query with both amounts set fails, and the fixed-spend
query builds a request whose send_max is the encoded 1 USD with issuer
defaulted to the source address. -/
theorem claim9_send_max_witness :
    requestPathFind specifiedDestQuery = .error .bothAmounts ∧
    (∃ req, requestPathFind lowFundsQuery = .ok req ∧
      req.send_max = some (defaultBlankIssuer "rSrc" (toStoxumdAmount (usdAmt 1)))) := by
  constructor
  · exact (claim9_send_max specifiedDestQuery (usdAmt 1) (by decide)).1 (by decide)
  · exact (claim9_send_max lowFundsQuery (usdAmt 1) (by decide)).2 (by decide)

theorem addParams_dest_currencies (req : PathFindRequest) (r : StoxumdPathsResponse) :
    (addParams req r).destination_currencies = r.destination_currencies := rfl

theorem addParams_source_currencies (req : PathFindRequest) (r : StoxumdPathsResponse) :
    (addParams req r).source_currencies = req.source_currencies := rfl

theorem condAdd_dest_currencies (b : ℚ) (paths : StoxumdPathsResponse) :
    ((conditionallyAddDirectXRPPath b paths).1).destination_currencies
      = paths.destination_currencies := by
  unfold conditionallyAddDirectXRPPath addDirectXrpPath
  split
  · rfl
  · split <;> rfl

theorem condAdd_source_currencies (b : ℚ) (paths : StoxumdPathsResponse) :
    ((conditionallyAddDirectXRPPath b paths).1).source_currencies
      = paths.source_currencies := by
  unfold conditionallyAddDirectXRPPath addDirectXrpPath
  split
  · rfl
  · split <;> rfl

theorem filterSFLP_dest_currencies (pf : PathFind) (paths : StoxumdPathsResponse) :
    (filterSourceFundsLowPaths pf paths).destination_currencies
      = paths.destination_currencies := by
  unfold filterSourceFundsLowPaths
  split <;> rfl

theorem filterSFLP_source_currencies (pf : PathFind) (paths : StoxumdPathsResponse) :
    (filterSourceFundsLowPaths pf paths).source_currencies
      = paths.source_currencies := by
  unfold filterSourceFundsLowPaths
  split <;> rfl

theorem processedPaths_dest_currencies (pf : PathFind) (req : PathFindRequest)
    (r : StoxumdPathsResponse) (b : ℚ) :
    (processedPaths pf req r b).destination_currencies = r.destination_currencies := by
  unfold processedPaths
  rw [filterSFLP_dest_currencies, condAdd_dest_currencies, addParams_dest_currencies]

theorem processedPaths_source_currencies (pf : PathFind) (req : PathFindRequest)
    (r : StoxumdPathsResponse) (b : ℚ) :
    (processedPaths pf req r b).source_currencies = req.source_currencies := by
  unfold processedPaths
  rw [filterSFLP_source_currencies, condAdd_source_currencies, addParams_source_currencies]

theorem sourceCurrencies_expr (pf : PathFind) :
    hasSourceCurrencies (match pf.source.currencies with
      | some l => if l.length > 0 then some (l.map renameCounterpartyToIssuer) else none
      | none => none) = querySpecifiesSourceCurrencies pf := by
  unfold querySpecifiesSourceCurrencies
  rcases hc : pf.source.currencies with _ | l
  · rfl
  · dsimp only
    by_cases hlen : l.length > 0
    · rw [if_pos hlen]
      simp [hasSourceCurrencies, hlen]
    · rw [if_neg hlen]
      simp [hasSourceCurrencies, hlen]

theorem requestPathFind_ok_sourceCurrencies (pf : PathFind) (req : PathFindRequest)
    (h : requestPathFind pf = .ok req) :
    hasSourceCurrencies req.source_currencies = querySpecifiesSourceCurrencies pf := by
  have hsc : req.source_currencies = (match pf.source.currencies with
      | some l => if l.length > 0 then some (l.map renameCounterpartyToIssuer) else none
      | none => none) := by
    unfold requestPathFind at h
    dsimp only at h
    split at h
    · split at h
      · exact absurd h (by simp)
      · simp only [Except.ok.injEq] at h
        rw [← h]
    · simp only [Except.ok.injEq] at h
      rw [← h]
  rw [hsc]
  exact sourceCurrencies_expr pf

theorem noPathsFallback_eq (paths : StoxumdPathsResponse) :
    noPathsFallback paths =
      (if hasSourceCurrencies paths.source_currencies then PathsError.insufficientLiquidity
       else PathsError.insufficientBalance) := by
  unfold noPathsFallback hasSourceCurrencies
  rcases paths.source_currencies with _ | l
  · rfl
  · dsimp only
    split <;> rename_i hlen
    · rw [if_pos (by simpa using hlen)]
    · rw [if_neg (by simpa using hlen)]

/-- C3: when the processed response retains no alternatives, the route
query fails with the not-found error diagnosed in priority order — the
accepted-currency report when the destination's currency list is present
and misses the requested currency, otherwise insufficient liquidity when
the query specified source currencies, otherwise insufficient source
balance — and a successful route query never returns an empty route set. -/
theorem claim3_no_paths_diagnosis :
    (∀ (pf : PathFind) (req : PathFindRequest) (serverResult : StoxumdPathsResponse)
        (xrpBalance : ℚ),
      requestPathFind pf = .ok req →
      ((processedPaths pf req serverResult xrpBalance).alternatives = some [] ∨
        (processedPaths pf req serverResult xrpBalance).alternatives = none) →
      getPathsPure pf serverResult xrpBalance = .error
        (match serverResult.destination_currencies with
         | some dc =>
            if dc.contains pf.destination.amount.currency then
              (if querySpecifiesSourceCurrencies pf then PathsError.insufficientLiquidity
               else PathsError.insufficientBalance)
            else PathsError.notAcceptedCurrency dc
         | none =>
            (if querySpecifiesSourceCurrencies pf then PathsError.insufficientLiquidity
             else PathsError.insufficientBalance))) ∧
    (∀ (pf : PathFind) (serverResult : StoxumdPathsResponse) (xrpBalance : ℚ)
        (routes : List PathAlternative),
      getPathsPure pf serverResult xrpBalance = .ok routes → routes ≠ []) := by
  constructor
  · intro pf req r bal hreq hempty
    unfold getPathsPure
    rw [hreq]
    dsimp only
    have hdiag : diagnoseNoPaths pf (processedPaths pf req r bal) =
        (match r.destination_currencies with
         | some dc =>
            if dc.contains pf.destination.amount.currency then
              (if querySpecifiesSourceCurrencies pf then PathsError.insufficientLiquidity
               else PathsError.insufficientBalance)
            else PathsError.notAcceptedCurrency dc
         | none =>
            (if querySpecifiesSourceCurrencies pf then PathsError.insufficientLiquidity
             else PathsError.insufficientBalance)) := by
      unfold diagnoseNoPaths
      rw [processedPaths_dest_currencies]
      have hfb : noPathsFallback (processedPaths pf req r bal) =
          (if querySpecifiesSourceCurrencies pf then PathsError.insufficientLiquidity
           else PathsError.insufficientBalance) := by
        rw [noPathsFallback_eq, processedPaths_source_currencies,
          requestPathFind_ok_sourceCurrencies pf req hreq]
      rcases r.destination_currencies with _ | dc
      · exact hfb
      · dsimp only
        cases hct : dc.contains pf.destination.amount.currency
        · simp [hct, hfb]
        · simp [hct, hfb]
    unfold formatResponse
    split
    · rename_i a rest heq
      rcases hempty with h | h <;> rw [h] at heq <;> exact absurd heq (by simp)
    · rw [hdiag]
  · intro pf r bal routes h
    unfold getPathsPure at h
    rcases hreq : requestPathFind pf with e | req <;> rw [hreq] at h <;> dsimp only at h
    · exact absurd h (by simp)
    · unfold formatResponse at h
      split at h
      · rename_i a rest heq
        simp only [Except.ok.injEq] at h
        subst h
        unfold parsePathfind
        rw [heq]
        simp
      · exact absurd h (by simp)

/-- C3 witness: the EUR query against a USD-only destination with no
alternatives fails reporting the accepted currencies, and a response with
one surviving alternative yields a non-empty route set. -/
theorem claim3_no_paths_diagnosis_witness :
    getPathsPure eurQuery emptyAltPaths 0 = .error (.notAcceptedCurrency ["USD"]) ∧
    [directAlternative (some (.obj "EUR" 3 (some "rX")))] ≠ ([] : List PathAlternative) := by
  constructor
  · exact (claim3_no_paths_diagnosis.1 eurQuery eurRequest emptyAltPaths 0
      (by decide) (Or.inl (by decide))).trans (by decide)
  · exact claim3_no_paths_diagnosis.2 eurQuery oneAltPaths 0 _ (by decide)

end Stoxum
